import Mathlib

/-!
Shallow embedding of the quota/entitlement core of the lept_reviewer
repository: the user table and its quota operations (src/database/queries.py),
the cached read layer and its write-through operations
(src/database/cached_queries.py), the usage-tracking service
(src/services/usage_tracker.py), and the connection manager's retry logic
(src/database/connection.py).

Modelling conventions:
- Timestamps (`datetime.now()`, SQL `CURRENT_TIMESTAMP()` / `NOW()`) are a
  `now : Int` parameter threaded to each operation that reads the clock.
- Database tables are association lists of records; SQL `UPDATE ... WHERE`
  maps over the list updating the matching rows, `INSERT` appends.
- `execute_query` with `fetch=False` commits and returns `True` whenever the
  statement executes without raising, REGARDLESS of how many rows matched the
  `WHERE` clause (psycopg2 raises no error on a zero-row `UPDATE`); an
  `INSERT` that violates the primary key raises, which `execute_query`
  catches, rolling back and returning `None`.  The table-level operations
  below are modelled under a healthy connection (no connectivity failure);
  the connectivity-failure path of `execute_query` is modelled separately by
  `execute_query_model`.
- Plan constants PLAN_FREE / PLAN_PRO / PLAN_PREMIUM and payment status
  constants (from the absent `config/settings.py`) are modelled as inductive
  types; the numeric configuration constants are fields of `AppConfig`.
-/

/-- Subscription plan tier (PLAN_FREE / PLAN_PRO / PLAN_PREMIUM constants of
`config/settings.py`, which is not under src; spec section 3 fixes the three
tiers). -/
inductive Plan where
  | FREE
  | PRO
  | PREMIUM
deriving DecidableEq

/-- A row of the USERS table, with the columns selected by
`get_user_by_email` (src/database/queries.py). -/
structure UserRec where
  email : String
  ip_address : String
  plan_type : Plan
  questions_used_total : Int
  questions_remaining : Int
  premium_expiry : Option Int
  is_blocked : Bool
  created_at : Int
  updated_at : Int
deriving DecidableEq

/-- A row of the USAGE_LOGS table (`log_usage`, src/database/queries.py). -/
structure LogRec where
  email : String
  ip_address : String
  questions_generated : Int
  source_type : Option String
  category : Option String
  difficulty : Option String
  notes : Option String
  event_time : Int
deriving DecidableEq

/-- A row of the IP_USAGE table (`log_ip_usage`, src/database/queries.py). -/
structure IpRec where
  ip_address : String
  questions_used_total : Int
  is_blocked : Bool
  last_seen : Int
deriving DecidableEq

/-- A row of the USER_IP_HISTORY table (`log_ip_history`). -/
structure IpHistRec where
  email : String
  ip_address : String
  last_seen : Int
deriving DecidableEq

/-- A row of the USER_DOCUMENTS table (src/database/queries.py). -/
structure UserDoc where
  doc_id : Int
  email : String
  file_name : String
  file_type : String
  storage_path : String
  text_stage_path : Option String
  extracted_text : Option String
  is_deleted : Bool
  uploaded_at : Int
deriving DecidableEq

/-- A row of the ADMIN_DOCUMENTS table (src/database/queries.py); the
base64-encoded FILE_CONTENT column is modelled as an abstract string. -/
structure AdminDoc where
  admin_doc_id : Int
  file_name : String
  file_type : String
  storage_path : String
  text_stage_path : Option String
  is_downloadable : Bool
  uploaded_by : String
  category : Option String
  extracted_text : Option String
  file_content : Option String
  is_deleted : Bool
  uploaded_at : Int
deriving DecidableEq

/-- Payment status (PAYMENT_PENDING / PAYMENT_APPROVED / PAYMENT_REJECTED
constants of the absent `config/settings.py`; spec section 3). -/
inductive PayStatus where
  | PENDING
  | APPROVED
  | REJECTED
deriving DecidableEq

/-- A row of the PAYMENTS table (src/database/queries.py). -/
structure Payment where
  payment_id : Int
  full_name : String
  email : String
  gcash_ref : Option String
  plan_requested : Plan
  receipt_storage_path : String
  status : PayStatus
  admin_notes : Option String
  approved_by : Option String
  approved_at : Option Int
  submitted_at : Int
deriving DecidableEq

/-- Numeric configuration constants of the absent `config/settings.py`
(FREE_QUESTION_LIMIT, PRO_QUESTION_BONUS, PREMIUM_DURATION_DAYS, the
per-batch question count); spec section 6 lists them as the recognized
configuration surface.  `premium_duration` is expressed in the same units as
the model's timestamps. -/
structure AppConfig where
  free_question_limit : Int
  pro_question_bonus : Int
  premium_duration : Int
  questions_per_batch : Int
deriving DecidableEq

/-- The database state together with the process-local Streamlit
`st.cache_data` caches of src/database/cached_queries.py.  Each cache is
modelled within its TTL: `userCache` holds the per-email memoised results of
`cached_get_user_by_email`, `adminDocsCache` the memoised result of
`cached_get_admin_documents`, `userDocsCache` the per-email memoised results
of `cached_get_user_documents`. -/
structure St where
  users : List UserRec
  usage_logs : List LogRec
  ip_usage : List IpRec
  user_ip_history : List IpHistRec
  user_documents : List UserDoc
  admin_documents : List AdminDoc
  payments : List Payment
  userCache : List (String × Option UserRec)
  adminDocsCache : Option (List AdminDoc)
  userDocsCache : List (String × List UserDoc)
deriving DecidableEq

/-- Row lookup underlying `get_user_by_email`: `SELECT ... FROM USERS WHERE
EMAIL = %s` (the table has EMAIL as primary key). -/
def findUser (st : St) (email : String) : Option UserRec :=
  st.users.find? (fun u => u.email == email)

/-- `get_user_by_email` (src/database/queries.py, lines 19-41): uncached
fresh read of the user row. -/
def get_user_by_email (st : St) (email : String) : Option UserRec :=
  findUser st email

/-- `log_ip_history` (src/database/queries.py, lines 195-215): upsert of the
USER_IP_HISTORY row for (email, ip). -/
def log_ip_history (st : St) (email ip : String) (now : Int) : St :=
  if (st.user_ip_history.find? (fun r => r.email == email && r.ip_address == ip)).isSome then
    { st with user_ip_history := st.user_ip_history.map (fun r =>
        if r.email = email ∧ r.ip_address = ip then { r with last_seen := now } else r) }
  else
    { st with user_ip_history := st.user_ip_history ++ [⟨email, ip, now⟩] }

/-- `log_ip_usage` (src/database/queries.py, lines 218-234): upsert of the
IP_USAGE row; a fresh row takes the table defaults (0 questions used, not
blocked). -/
def log_ip_usage (st : St) (ip : String) (now : Int) : St :=
  if (st.ip_usage.find? (fun r => r.ip_address == ip)).isSome then
    { st with ip_usage := st.ip_usage.map (fun r =>
        if r.ip_address = ip then { r with last_seen := now } else r) }
  else
    { st with ip_usage := st.ip_usage ++ [⟨ip, 0, false, now⟩] }

/-- `increment_ip_usage` (src/database/queries.py, lines 237-244). -/
def increment_ip_usage (st : St) (ip : String) (count now : Int) : St :=
  { st with ip_usage := st.ip_usage.map (fun r =>
      if r.ip_address = ip then
        { r with questions_used_total := r.questions_used_total + count, last_seen := now }
      else r) }

/-- `is_ip_blocked` (src/database/queries.py, lines 247-253). -/
def is_ip_blocked (st : St) (ip : String) : Bool :=
  match st.ip_usage.find? (fun r => r.ip_address == ip) with
  | some r => r.is_blocked
  | none => false

/-- `create_user` (src/database/queries.py, lines 44-57): a plain `INSERT`
into USERS.  When the email already exists the INSERT violates the primary
key and raises; `execute_query` catches the exception, rolls back and
returns `None`, so `create_user` returns `None` and skips the IP logging.
Unlisted columns take the table defaults (FREE plan is passed explicitly;
0 questions used, no expiry, not blocked per spec section 3). -/
def create_user (cfg : AppConfig) (st : St) (email ip : String) (now : Int) :
    St × Option String :=
  if (findUser st email).isSome then
    (st, none)
  else
    let u : UserRec :=
      { email := email, ip_address := ip, plan_type := .FREE,
        questions_used_total := 0, questions_remaining := cfg.free_question_limit,
        premium_expiry := none, is_blocked := false, created_at := now, updated_at := now }
    let st1 := { st with users := st.users ++ [u] }
    let st2 := log_ip_history st1 email ip now
    let st3 := log_ip_usage st2 ip now
    (st3, some email)

/-- Effect on one USERS row of the IP UPDATE of `update_user_ip` /
`write_update_user_ip`. -/
def setIpRow (email ip : String) (now : Int) (u : UserRec) : UserRec :=
  if u.email = email then { u with ip_address := ip, updated_at := now } else u

/-- `update_user_ip` (src/database/queries.py, lines 60-68). -/
def update_user_ip (st : St) (email ip : String) (now : Int) : St :=
  let st1 := { st with users := st.users.map (setIpRow email ip now) }
  log_ip_history st1 email ip now

/-- Effect on one USERS row of the plan UPDATE shared by `update_user_plan`
and `change_user_plan`: `SET PLAN_STATUS, QUESTIONS_REMAINING,
PREMIUM_EXPIRY, UPDATED_AT WHERE EMAIL = %s`. -/
def setPlanRow (email : String) (plan : Plan) (qr : Int) (expiry : Option Int)
    (now : Int) (u : UserRec) : UserRec :=
  if u.email = email then
    { u with plan_type := plan, questions_remaining := qr,
             premium_expiry := expiry, updated_at := now }
  else u

/-- `update_user_plan` (src/database/queries.py, lines 71-81): sets plan,
remaining quota and expiry; when the new plan is PREMIUM and no expiry was
passed, defaults the expiry to now + PREMIUM_DURATION_DAYS.  (The Python
default of `None` for `questions_remaining` is never exercised from src.) -/
def update_user_plan (cfg : AppConfig) (st : St) (email : String) (plan : Plan)
    (qr : Int) (expiry : Option Int) (now : Int) : St × Bool :=
  let expiry := if plan = .PREMIUM ∧ expiry = none then some (now + cfg.premium_duration) else expiry
  ({ st with users := st.users.map (setPlanRow email plan qr expiry now) }, true)

/-- Effect on one USERS row of the conditional decrement UPDATE of
`decrement_user_questions`: rows matching `EMAIL = %s AND
QUESTIONS_REMAINING >= %s` are decremented, all others are untouched. -/
def decRow (email : String) (count now : Int) (u : UserRec) : UserRec :=
  if u.email = email ∧ count ≤ u.questions_remaining then
    { u with questions_remaining := u.questions_remaining - count,
             questions_used_total := u.questions_used_total + count,
             updated_at := now }
  else u

/-- `decrement_user_questions` (src/database/queries.py, lines 84-93): the
single conditional `UPDATE ... WHERE EMAIL = %s AND QUESTIONS_REMAINING >=
%s`.  The returned Bool is the value of `execute_query(..., fetch=False)`
under a healthy connection: the commit succeeds and yields `True` whether or
not any row matched the WHERE clause (the rowcount is never inspected). -/
def decrement_user_questions (st : St) (email : String) (count now : Int) :
    St × Bool :=
  ({ st with users := st.users.map (decRow email count now) }, true)

/-- `block_user` (src/database/queries.py, lines 96-103). -/
def block_user (st : St) (email : String) (blocked : Bool) (now : Int) : St × Bool :=
  ({ st with users := st.users.map (fun u =>
      if u.email = email then { u with is_blocked := blocked, updated_at := now } else u) }, true)

/-- `adjust_user_quota` (src/database/queries.py, lines 132-139). -/
def adjust_user_quota (st : St) (email : String) (new_quota now : Int) : St × Bool :=
  ({ st with users := st.users.map (fun u =>
      if u.email = email then { u with questions_remaining := new_quota, updated_at := now } else u) }, true)

/-- `delete_user` (src/database/queries.py, lines 142-152): deletes the
user's USER_IP_HISTORY, USAGE_LOGS, USER_DOCUMENTS and PAYMENTS rows, then
the USERS row. -/
def delete_user (st : St) (email : String) : St × Bool :=
  ({ st with
      user_ip_history := st.user_ip_history.filter (fun r => !(r.email == email)),
      usage_logs := st.usage_logs.filter (fun r => !(r.email == email)),
      user_documents := st.user_documents.filter (fun d => !(d.email == email)),
      payments := st.payments.filter (fun p => !(p.email == email)),
      users := st.users.filter (fun u => !(u.email == email)) }, true)

/-- `change_user_plan` (src/database/queries.py, lines 155-179): fills in the
per-plan default quota (FREE_QUESTION_LIMIT / PRO_QUESTION_BONUS / the 9999
premium sentinel) and, for PREMIUM, the expiry now + PREMIUM_DURATION_DAYS,
then runs the same UPDATE as `update_user_plan`.  It performs no cache
invalidation. -/
def change_user_plan (cfg : AppConfig) (st : St) (email : String) (new_plan : Plan)
    (questions_remaining : Option Int) (now : Int) : St × Bool :=
  let qr := match new_plan with
    | .FREE => questions_remaining.getD cfg.free_question_limit
    | .PRO => questions_remaining.getD cfg.pro_question_bonus
    | .PREMIUM => questions_remaining.getD 9999
  let expiry : Option Int := match new_plan with
    | .PREMIUM => some (now + cfg.premium_duration)
    | _ => none
  ({ st with users := st.users.map (setPlanRow email new_plan qr expiry now) }, true)

/-- The Python truthiness test `user["premium_expiry"] and
user["premium_expiry"] < datetime.now()` of `check_premium_expiry`. -/
def expiryPast (expiry : Option Int) (now : Int) : Bool :=
  match expiry with
  | some e => decide (e < now)
  | none => false

/-- `check_premium_expiry` (src/database/queries.py, lines 182-190): reads
the user; if the stored plan is PREMIUM with an expiry strictly in the past,
reverts the row to FREE with 0 questions and no expiry and returns `true`. -/
def check_premium_expiry (cfg : AppConfig) (st : St) (email : String) (now : Int) :
    St × Bool :=
  match get_user_by_email st email with
  | some u =>
      if u.plan_type = .PREMIUM ∧ expiryPast u.premium_expiry now = true then
        ((update_user_plan cfg st email .FREE 0 none now).1, true)
      else (st, false)
  | none => (st, false)

/-- `log_usage` (src/database/queries.py, lines 258-265): appends a row to
USAGE_LOGS. -/
def log_usage (st : St) (email ip : String) (questions_generated : Int)
    (source_type category difficulty notes : Option String) (now : Int) : St × Bool :=
  ({ st with usage_logs := st.usage_logs ++
      [⟨email, ip, questions_generated, source_type, category, difficulty, notes, now⟩] }, true)

/-- `get_user_documents` (src/database/queries.py, lines 339-360): `SELECT
... WHERE EMAIL = %s AND IS_DELETED = FALSE` (the soft-delete filter is in
the query itself; the ORDER BY upload time is not modelled, the claims below
concern membership only). -/
def get_user_documents (st : St) (email : String) : List UserDoc :=
  st.user_documents.filter (fun d => d.email == email && !d.is_deleted)

/-- `delete_user_document` (src/database/queries.py, lines 363-369): soft
delete scoped to the owning email; no cache invalidation is performed. -/
def delete_user_document (st : St) (doc_id : Int) (email : String) : St × Bool :=
  ({ st with user_documents := st.user_documents.map (fun d =>
      if d.doc_id = doc_id ∧ d.email = email then { d with is_deleted := true } else d) }, true)

/-- `get_admin_documents` (src/database/queries.py, lines 399-424): `SELECT
... WHERE IS_DELETED = FALSE` (ORDER BY upload time not modelled). -/
def get_admin_documents (st : St) : List AdminDoc :=
  st.admin_documents.filter (fun d => !d.is_deleted)

/-- `get_admin_document_content` (src/database/queries.py, lines 427-446):
returns the content with filename and type for a non-deleted row with
content, else `None` (the base64 decode, which never fails on content the
system itself encoded, is abstracted away). -/
def get_admin_document_content (st : St) (doc_id : Int) :
    Option (String × String × String) :=
  match st.admin_documents.find? (fun d => d.admin_doc_id == doc_id && !d.is_deleted) with
  | some d =>
      match d.file_content with
      | some c => some (c, d.file_name, d.file_type)
      | none => none
  | none => none

/-- `get_admin_document_text` (src/database/queries.py, lines 449-459). -/
def get_admin_document_text (st : St) (doc_id : Int) :
    Option (Option String × String) :=
  match st.admin_documents.find? (fun d => d.admin_doc_id == doc_id && !d.is_deleted) with
  | some d => some (d.extracted_text, d.file_name)
  | none => none

/-- `update_admin_document_downloadable` (src/database/queries.py,
lines 462-469). -/
def update_admin_document_downloadable (st : St) (doc_id : Int) (is_downloadable : Bool) :
    St × Bool :=
  ({ st with admin_documents := st.admin_documents.map (fun d =>
      if d.admin_doc_id = doc_id then { d with is_downloadable := is_downloadable } else d) }, true)

/-- `delete_admin_document` (src/database/queries.py, lines 472-478): soft
delete of an admin document; no cache invalidation is performed (its caller
at src/pages/admin_panel.py line 411 performs none either). -/
def delete_admin_document (st : St) (doc_id : Int) : St × Bool :=
  ({ st with admin_documents := st.admin_documents.map (fun d =>
      if d.admin_doc_id = doc_id then { d with is_deleted := true } else d) }, true)

/-- `approve_payment` (src/database/queries.py, lines 582-589): a single
UPDATE setting STATUS = APPROVED, the admin notes, APPROVED_AT and
APPROVED_BY for the payment id. -/
def approve_payment (st : St) (payment_id : Int) (admin_notes : Option String)
    (approved_by : String) (now : Int) : St × Bool :=
  ({ st with payments := st.payments.map (fun p =>
      if p.payment_id = payment_id then
        { p with status := .APPROVED, admin_notes := admin_notes,
                 approved_at := some now, approved_by := some approved_by }
      else p) }, true)

/-- `reject_payment` (src/database/queries.py, lines 592-599). -/
def reject_payment (st : St) (payment_id : Int) (admin_notes : Option String)
    (approved_by : String) (now : Int) : St × Bool :=
  ({ st with payments := st.payments.map (fun p =>
      if p.payment_id = payment_id then
        { p with status := .REJECTED, admin_notes := admin_notes,
                 approved_at := some now, approved_by := some approved_by }
      else p) }, true)

/-- `cached_get_user_by_email` (src/database/cached_queries.py, lines
19-43): a read-through `st.cache_data(ttl=60)` memo keyed by email; a hit
within the TTL returns the memoised value (possibly a memoised `None`)
without touching the database. -/
def cached_get_user_by_email (st : St) (email : String) : St × Option UserRec :=
  match st.userCache.find? (fun p => p.1 == email) with
  | some p => (st, p.2)
  | none =>
      let v := findUser st email
      ({ st with userCache := st.userCache ++ [(email, v)] }, v)

/-- `cached_get_admin_documents` (src/database/cached_queries.py, lines
46-73): a read-through `st.cache_data(ttl=300)` memo of the non-deleted
admin documents (`LIMIT 50`; ORDER BY upload time not modelled). -/
def cached_get_admin_documents (st : St) : St × List AdminDoc :=
  match st.adminDocsCache with
  | some l => (st, l)
  | none =>
      let l := (st.admin_documents.filter (fun d => !d.is_deleted)).take 50
      ({ st with adminDocsCache := some l }, l)

/-- `cached_get_user_documents` (src/database/cached_queries.py, lines
76-101): a read-through `st.cache_data(ttl=120)` memo keyed by email
(`LIMIT 20`). -/
def cached_get_user_documents (st : St) (email : String) : St × List UserDoc :=
  match st.userDocsCache.find? (fun p => p.1 == email) with
  | some p => (st, p.2)
  | none =>
      let l := (st.user_documents.filter (fun d => d.email == email && !d.is_deleted)).take 20
      ({ st with userDocsCache := st.userDocsCache ++ [(email, l)] }, l)

/-- `invalidate_user_cache` (src/database/cached_queries.py, lines 126-129):
`cached_get_user_by_email.clear()` drops EVERY memoised entry (the email
argument is ignored by the implementation). -/
def invalidate_user_cache (st : St) (_email : String) : St :=
  { st with userCache := [] }

/-- `invalidate_admin_docs_cache` (src/database/cached_queries.py, lines
131-133). -/
def invalidate_admin_docs_cache (st : St) : St :=
  { st with adminDocsCache := none }

/-- `invalidate_user_docs_cache` (src/database/cached_queries.py, lines
136-138): clears every memoised entry. -/
def invalidate_user_docs_cache (st : St) (_email : String) : St :=
  { st with userDocsCache := [] }

/-- `write_create_user` (src/database/cached_queries.py, lines 152-166):
`INSERT ... ON CONFLICT (email) DO NOTHING`, so a duplicate insert is a
successful no-op statement and `execute_write` still returns `True`; on
success the user cache is invalidated and the IP is logged. -/
def write_create_user (cfg : AppConfig) (st : St) (email ip : String) (now : Int) :
    St × Option String :=
  let st1 :=
    if (findUser st email).isSome then st
    else { st with users := st.users ++
      [{ email := email, ip_address := ip, plan_type := .FREE,
         questions_used_total := 0, questions_remaining := cfg.free_question_limit,
         premium_expiry := none, is_blocked := false, created_at := now, updated_at := now }] }
  let st2 := invalidate_user_cache st1 email
  let st3 := log_ip_history st2 email ip now
  let st4 := log_ip_usage st3 ip now
  (st4, some email)

/-- `write_update_user_ip` (src/database/cached_queries.py, lines 169-179):
updates the IP and logs the history; performs NO cache invalidation. -/
def write_update_user_ip (st : St) (email ip : String) (now : Int) : St × Bool :=
  let st1 := { st with users := st.users.map (setIpRow email ip now) }
  (log_ip_history st1 email ip now, true)

/-- `write_decrement_questions` (src/database/cached_queries.py, lines
182-194): the same conditional decrement UPDATE as
`decrement_user_questions`; on statement success it invalidates the user
cache.  As with the queries-module variant, the returned Bool is the
statement status, not the matched-row count. -/
def write_decrement_questions (st : St) (email : String) (count now : Int) :
    St × Bool :=
  let (st1, r) := decrement_user_questions st email count now
  if r then (invalidate_user_cache st1 email, r) else (st1, r)

/-- `can_generate_questions` (src/services/usage_tracker.py, lines 68-107):
the pure permission check over a (possibly absent) user record.  Source
message strings are kept except that apostrophes are elided. -/
def can_generate_questions (user : Option UserRec) (now : Int) : Bool × String :=
  match user with
  | none => (false, "User not found")
  | some u =>
      if u.is_blocked then (false, "Your account has been blocked.")
      else if u.plan_type = .PREMIUM ∧ u.premium_expiry ≠ none then
        match u.premium_expiry with
        | some e =>
            if now < e then (true, "Premium access active")
            else (false, "Your Premium subscription has expired. Please renew to continue.")
        | none => (false, "")
      else
        if u.questions_remaining ≤ 0 then
          if u.plan_type = .FREE then
            (false, "You have used all your free questions. Upgrade to PRO or PREMIUM for more!")
          else
            (false, "You have used all your questions. Upgrade to PREMIUM for unlimited access!")
        else (true, toString u.questions_remaining ++ " questions remaining")

/-- The Python truthiness test `expiry and expiry > datetime.now()` of
`use_questions`. -/
def premiumStillActive (expiry : Option Int) (now : Int) : Bool :=
  match expiry with
  | some e => decide (now < e)
  | none => false

/-- `use_questions` (src/services/usage_tracker.py, lines 110-147): re-reads
the user fresh (uncached), returns `False` for an unknown user, appends the
usage log and touches the IP aggregate unconditionally, returns `True`
without decrement for an unexpired PREMIUM user, and otherwise returns the
result of the conditional decrement statement. -/
def use_questions (st : St) (email ip : String) (count : Int)
    (source_type category difficulty : Option String) (now : Int) : St × Bool :=
  match get_user_by_email st email with
  | none => (st, false)
  | some user =>
      let st1 := (log_usage st email ip count source_type category difficulty none now).1
      let st2 := increment_ip_usage st1 ip count now
      if user.plan_type = .PREMIUM ∧ premiumStillActive user.premium_expiry now = true then
        (st2, true)
      else
        decrement_user_questions st2 email count now

/-- `get_or_create_user` (src/services/usage_tracker.py, lines 23-65): the
login entry point.  For an existing non-blocked user it updates the IP and,
for a PREMIUM user, runs `check_premium_expiry` and re-reads the row;
otherwise it creates the user.  The client IP is a parameter (the
`get_client_ip` collaborator is external). -/
def get_or_create_user (cfg : AppConfig) (st : St) (email ip : String) (now : Int) :
    St × Option UserRec × String :=
  if is_ip_blocked st ip then
    (st, none, "This IP address has been blocked. Please contact support.")
  else
    match get_user_by_email st email with
    | some existing =>
        if existing.is_blocked then
          (st, none, "This account has been blocked. Please contact support.")
        else
          let st1 := update_user_ip st email ip now
          if existing.plan_type = .PREMIUM then
            let st2 := (check_premium_expiry cfg st1 email now).1
            (st2, get_user_by_email st2 email, "Welcome back!")
          else
            (st1, some existing, "Welcome back!")
    | none =>
        match create_user cfg st email ip now with
        | (st1, some _) => (st1, get_user_by_email st1 email, "Account created successfully!")
        | (st1, none) => (st1, none, "Failed to create account. Please try again.")

/-- Outcome of one `cursor.execute` attempt inside `execute_query`
(src/database/connection.py): success with rows, a
`psycopg2.OperationalError` (connectivity failure), or any other
exception. -/
inductive AttemptResult where
  | ok (rows : List (List String))
  | opError
  | otherError
deriving DecidableEq

/-- What the environment would make each step of `execute_query` do: the
outcome of the first execute attempt, whether `get_connection()` after
`st.cache_resource.clear()` yields a fresh session, and the outcome of the
retry attempt. -/
structure ExecEnv where
  firstAttempt : AttemptResult
  reconnectOk : Bool
  retryAttempt : AttemptResult
deriving DecidableEq

/-- Observable side effects of one `execute_query` call: how many times
`cursor.execute` ran, how many rollbacks were attempted, and how many times
the cached session was discarded and recreated. -/
structure ExecTrace where
  executeCalls : Nat
  rollbacks : Nat
  sessionRecreations : Nat
deriving DecidableEq

/-- The value `execute_query` hands back on success: fetched rows for
`fetch=True`, the literal `True` for a committed write. -/
inductive QueryResult where
  | rows (rs : List (List String))
  | writeOk
deriving DecidableEq

/-- `execute_query` (src/database/connection.py, lines 66-141), modelled as
its control flow over an attempt-outcome environment.  A first-attempt
`OperationalError` triggers: rollback, `st.cache_resource.clear()` plus
`get_connection()` (one session recreation), and -- when a fresh session was
obtained -- exactly one retry of the same statement; any retry failure is
swallowed and `None` is returned.  Any other first-attempt exception rolls
back and returns `None` without retry. -/
def execute_query_model (env : ExecEnv) (fetch : Bool) :
    Option QueryResult × ExecTrace :=
  match env.firstAttempt with
  | .ok rs => ((if fetch then some (.rows rs) else some .writeOk), ⟨1, 0, 0⟩)
  | .otherError => (none, ⟨1, 1, 0⟩)
  | .opError =>
      if env.reconnectOk then
        match env.retryAttempt with
        | .ok rs => ((if fetch then some (.rows rs) else some .writeOk), ⟨2, 1, 1⟩)
        | _ => (none, ⟨2, 1, 1⟩)
      else (none, ⟨1, 1, 1⟩)

/-- Modelled from the spec: `process_payment_approval`
(services/payment_handler.py) is not under src -- only its caller
src/pages/admin_panel.py lines 262-286 is.  Spec section 4.3 prescribes:
apply the plan change for the requester first, and only after that write
succeeds persist the APPROVED status; if the plan-change write fails, leave
the payment PENDING.  `planChangeOk` abstracts whether the plan-change
write succeeds at the connection level (a lost connection makes
`execute_query` return `None`). -/
def process_payment_approval (cfg : AppConfig) (st : St) (payment_id : Int)
    (email : String) (plan_requested : Plan) (admin_notes : Option String)
    (approved_by : String) (now : Int) (planChangeOk : Bool) : St × Bool :=
  if planChangeOk then
    let st1 := (change_user_plan cfg st email plan_requested none now).1
    ((approve_payment st1 payment_id admin_notes approved_by now).1, true)
  else
    (st, false)

/-! ## Helper lemmas -/

theorem find?_map_of_email_preserved (f : UserRec → UserRec)
    (hf : ∀ u, (f u).email = u.email) (users : List UserRec) (p : String) :
    (users.map f).find? (fun u => u.email == p) =
      (users.find? (fun u => u.email == p)).map f := by
  induction users with
  | nil => rfl
  | cons a l ih =>
    simp only [List.map_cons, List.find?_cons, hf a]
    cases h : (a.email == p) <;> simp [h, ih]

theorem log_ip_history_users (st : St) (e i : String) (n : Int) :
    (log_ip_history st e i n).users = st.users := by
  unfold log_ip_history; split <;> rfl

theorem log_ip_usage_users (st : St) (i : String) (n : Int) :
    (log_ip_usage st i n).users = st.users := by
  unfold log_ip_usage; split <;> rfl

theorem log_ip_history_usage_logs (st : St) (e i : String) (n : Int) :
    (log_ip_history st e i n).usage_logs = st.usage_logs := by
  unfold log_ip_history; split <;> rfl

theorem log_ip_usage_usage_logs (st : St) (i : String) (n : Int) :
    (log_ip_usage st i n).usage_logs = st.usage_logs := by
  unfold log_ip_usage; split <;> rfl

theorem log_ip_history_userCache (st : St) (e i : String) (n : Int) :
    (log_ip_history st e i n).userCache = st.userCache := by
  unfold log_ip_history; split <;> rfl

theorem log_ip_usage_userCache (st : St) (i : String) (n : Int) :
    (log_ip_usage st i n).userCache = st.userCache := by
  unfold log_ip_usage; split <;> rfl

/-- All users of the database hold a non-negative remaining-question count
(spec section 3 invariant on `questions_remaining`). -/
def usersNonneg (st : St) : Prop :=
  ∀ u ∈ st.users, 0 ≤ u.questions_remaining

instance usersNonnegDecidable (st : St) : Decidable (usersNonneg st) :=
  inferInstanceAs (Decidable (∀ u ∈ st.users, 0 ≤ u.questions_remaining))

/-- The conditional decrement of `decrement_user_questions` matches a row:
the user exists with at least `count` questions remaining. -/
def decrementApplies (st : St) (email : String) (count : Int) : Prop :=
  ∃ u, findUser st email = some u ∧ count ≤ u.questions_remaining

/-- One consume call (`use_questions`) as a state transformer, for iterating
sequences of consume operations; the tuple carries email, IP, count and the
call time. -/
def consumeStep (s : St) (o : String × String × Int × Int) : St :=
  (use_questions s o.1 o.2.1 o.2.2.1 none none none o.2.2.2).1

theorem decrement_preserves_nonneg (st : St) (email : String) (count now : Int)
    (h : usersNonneg st) :
    usersNonneg (decrement_user_questions st email count now).1 := by
  intro u hu
  simp only [decrement_user_questions, List.mem_map] at hu
  obtain ⟨v, hv, rfl⟩ := hu
  unfold decRow
  by_cases hc : v.email = email ∧ count ≤ v.questions_remaining
  · simp only [if_pos hc]
    exact sub_nonneg.mpr hc.2
  · simp only [if_neg hc]
    exact h v hv

theorem use_questions_preserves_nonneg (st : St) (email ip : String) (count : Int)
    (s c d : Option String) (now : Int) (h : usersNonneg st) :
    usersNonneg (use_questions st email ip count s c d now).1 := by
  unfold use_questions
  cases hg : get_user_by_email st email with
  | none => exact h
  | some user =>
      simp only
      split
      · intro u hu
        simp only [increment_ip_usage, log_usage] at hu
        exact h u hu
      · apply decrement_preserves_nonneg
        intro u hu
        simp only [increment_ip_usage, log_usage] at hu
        exact h u hu

theorem decRow_email (email : String) (count now : Int) (u : UserRec) :
    (decRow email count now u).email = u.email := by
  unfold decRow; split <;> rfl

theorem setPlanRow_email (email : String) (plan : Plan) (qr : Int)
    (expiry : Option Int) (now : Int) (u : UserRec) :
    (setPlanRow email plan qr expiry now u).email = u.email := by
  unfold setPlanRow; split <;> rfl

theorem findUser_decrement (st : St) (email p : String) (count now : Int) :
    findUser (decrement_user_questions st email count now).1 p =
      (findUser st p).map (decRow email count now) :=
  find?_map_of_email_preserved _ (decRow_email email count now) st.users p

/-- Claim C1: for every user and every sequence of consume operations,
`questions_remaining` never becomes negative -- the quota decrement is the
single conditional UPDATE guarded by `QUESTIONS_REMAINING >= count`, and
when the quota equals one batch, at most one of two decrements of that
batch can match a row: the second sees the exhausted quota and matches
nothing. -/
theorem C1_quota_never_negative :
    (∀ (st : St) (ops : List (String × String × Int × Int)),
        usersNonneg st → usersNonneg (ops.foldl consumeStep st)) ∧
    (∀ (st : St) (email : String) (u : UserRec) (b now : Int),
        findUser st email = some u → u.questions_remaining = b → 0 < b →
        decrementApplies st email b ∧
        ¬ decrementApplies (decrement_user_questions st email b now).1 email b) := by
  constructor
  · intro st ops
    induction ops generalizing st with
    | nil => exact fun h => h
    | cons o l ih =>
        intro h
        exact ih _ (use_questions_preserves_nonneg _ _ _ _ _ _ _ _ h)
  · intro st email u b now hu hb hpos
    have he : u.email = email := by
      have := List.find?_some hu
      simpa using this
    refine ⟨⟨u, hu, hb.ge⟩, ?_⟩
    rintro ⟨v, hv, hle⟩
    rw [findUser_decrement, hu] at hv
    have hv' : decRow email b now u = v := by
      simpa using hv
    have : v.questions_remaining = 0 := by
      rw [← hv']
      unfold decRow
      rw [if_pos ⟨he, hb.ge⟩]
      simp [hb]
    omega

/-- Witness for C1 at a concrete input: a FREE user with quota 5 consuming
batches of 5: the quota stays non-negative, the first decrement of the
batch applies and the second cannot. -/
theorem C1_quota_never_negative_witness :
    (usersNonneg ([(("a", "ip", (5 : Int), (0 : Int))), (("a", "ip", 5, 1)), (("a", "ip", 5, 2))].foldl consumeStep
      ⟨[⟨"a", "ip", .FREE, 0, 5, none, false, 0, 0⟩], [], [], [], [], [], [], [], none, []⟩)) ∧
    (decrementApplies ⟨[⟨"a", "ip", .FREE, 0, 5, none, false, 0, 0⟩], [], [], [], [], [], [], [], none, []⟩ "a" 5 ∧
      ¬ decrementApplies (decrement_user_questions
        ⟨[⟨"a", "ip", .FREE, 0, 5, none, false, 0, 0⟩], [], [], [], [], [], [], [], none, []⟩ "a" 5 3).1 "a" 5) :=
  ⟨C1_quota_never_negative.1 _ _ (by decide),
   C1_quota_never_negative.2 _ "a" ⟨"a", "ip", .FREE, 0, 5, none, false, 0, 0⟩ 5 3
     (by decide) (by decide) (by decide)⟩

/-- Claim C2 (code bug, evaluated at the failing input): a FREE user with 3
questions remaining consumes a batch of 5.  The conditional UPDATE matches
no row, so no partial decrement happens (the quota stays 3) -- but
`use_questions` still returns `True`, because `execute_query(...,
fetch=False)` reports statement success, never the matched-row count, so a
failed decrement is indistinguishable from an applied one. -/
theorem C2_failed_decrement_reported_as_success :
    (use_questions ⟨[⟨"a", "ip", .FREE, 0, 3, none, false, 0, 0⟩], [], [], [], [], [], [], [], none, []⟩
        "a" "ip" 5 none none none 10).2 = true ∧
    (findUser (use_questions ⟨[⟨"a", "ip", .FREE, 0, 3, none, false, 0, 0⟩], [], [], [], [], [], [], [], none, []⟩
        "a" "ip" 5 none none none 10).1 "a").map (fun u => u.questions_remaining) = some 3 ∧
    (decrement_user_questions ⟨[⟨"a", "ip", .FREE, 0, 3, none, false, 0, 0⟩], [], [], [], [], [], [], [], none, []⟩
        "a" 5 10).2 = true := by
  decide

theorem setIpRow_email (email ip : String) (now : Int) (u : UserRec) :
    (setIpRow email ip now u).email = u.email := by
  unfold setIpRow; split <;> rfl

theorem findUser_update_user_plan (cfg : AppConfig) (st : St) (email p : String)
    (plan : Plan) (qr : Int) (expiry : Option Int) (now : Int) :
    findUser (update_user_plan cfg st email plan qr expiry now).1 p =
      (findUser st p).map (setPlanRow email plan qr
        (if plan = .PREMIUM ∧ expiry = none then some (now + cfg.premium_duration) else expiry) now) :=
  find?_map_of_email_preserved _ (setPlanRow_email _ _ _ _ _) st.users p

theorem findUser_update_user_ip (st : St) (email ip p : String) (now : Int) :
    findUser (update_user_ip st email ip now) p =
      (findUser st p).map (setIpRow email ip now) := by
  unfold update_user_ip
  rw [show findUser (log_ip_history { st with users := st.users.map (setIpRow email ip now) } email ip now) p =
        ({ st with users := st.users.map (setIpRow email ip now) } : St).users.find? (fun u => u.email == p) from by
      rw [findUser, log_ip_history_users]]
  exact find?_map_of_email_preserved _ (setIpRow_email _ _ _) st.users p

/-- Claim C3 counterexample: a stored PREMIUM user with expiry 0, quota 5,
performing the first consume at time 10 (expiry in the past).  Afterwards
the stored record is still PREMIUM with the quota decremented to 4 -- not
FREE with 0 questions: neither `can_generate_questions` (a pure function of
the row: it writes nothing) nor `use_questions` performs the downgrade. -/
theorem C3_consume_does_not_downgrade :
    (findUser (use_questions
        ⟨[⟨"a", "ip", .PREMIUM, 0, 5, some 0, false, 0, 0⟩], [], [], [], [], [], [], [], none, []⟩
        "a" "ip" 1 none none none 10).1 "a").map
      (fun u => (u.plan_type, u.questions_remaining)) = some (.PREMIUM, 4) := by
  decide

/-- Claim C3 amended: the lazy downgrade of an expired PREMIUM user happens
at login, not at evaluate/consume: `check_premium_expiry` -- which
`get_or_create_user` invokes for PREMIUM users -- rewrites the row to FREE
with 0 questions and no expiry, and the downgrade is observable on the next
uncached read (including the re-read `get_or_create_user` itself returns);
`can_generate_questions` merely denies the expired user with the renewal
message, performing no write, and `use_questions` decrements the quota like
FREE/PRO rather than downgrading. -/
theorem C3_downgrade_at_login (cfg : AppConfig) (st : St) (u : UserRec)
    (email ip : String) (e now : Int)
    (hu : findUser st email = some u) (hplan : u.plan_type = .PREMIUM)
    (hexp : u.premium_expiry = some e) (hpast : e < now) (hblk : u.is_blocked = false)
    (hip : is_ip_blocked st ip = false) :
    (check_premium_expiry cfg st email now).2 = true ∧
    (findUser (check_premium_expiry cfg st email now).1 email).map
        (fun v => (v.plan_type, v.questions_remaining, v.premium_expiry)) =
      some (.FREE, 0, none) ∧
    can_generate_questions (some u) now =
      (false, "Your Premium subscription has expired. Please renew to continue.") ∧
    ((get_or_create_user cfg st email ip now).2.1).map
        (fun v => (v.plan_type, v.questions_remaining)) = some (.FREE, 0) := by
  have hdowngrade : ∀ (st' : St) (w : UserRec), findUser st' email = some w →
      w.plan_type = .PREMIUM → w.premium_expiry = some e →
      (findUser (check_premium_expiry cfg st' email now).1 email).map
        (fun v => (v.plan_type, v.questions_remaining, v.premium_expiry)) =
      some (.FREE, 0, none) := by
    intro st' w hw hwplan hwexp
    have hwe : w.email = email := by simpa using List.find?_some hw
    have hwcond : w.plan_type = .PREMIUM ∧ expiryPast w.premium_expiry now = true := by
      refine ⟨hwplan, ?_⟩
      rw [hwexp]
      simp [expiryPast, hpast]
    simp only [check_premium_expiry, get_user_by_email, hw, if_pos hwcond]
    rw [findUser_update_user_plan, hw]
    simp [setPlanRow, hwe]
  refine ⟨?_, hdowngrade st u hu hplan hexp, ?_, ?_⟩
  · have hcond : u.plan_type = .PREMIUM ∧ expiryPast u.premium_expiry now = true := by
      refine ⟨hplan, ?_⟩
      rw [hexp]
      simp [expiryPast, hpast]
    simp [check_premium_expiry, get_user_by_email, hu, hcond]
  · simp only [can_generate_questions, hblk, Bool.false_eq_true, if_false, hexp]
    rw [if_pos ⟨hplan, by simp⟩]
    simp [not_lt.mpr hpast.le]
  · have he : u.email = email := by simpa using List.find?_some hu
    have hu1 : findUser (update_user_ip st email ip now) email =
        some { u with ip_address := ip, updated_at := now } := by
      rw [findUser_update_user_ip, hu]
      simp [setIpRow, he]
    have h3 := hdowngrade (update_user_ip st email ip now)
        { u with ip_address := ip, updated_at := now } hu1 hplan hexp
    simp only [get_or_create_user, hip, Bool.false_eq_true, if_false,
      get_user_by_email, hu, hblk, hplan, if_true]
    cases hw : findUser (check_premium_expiry cfg (update_user_ip st email ip now) email now).1 email with
    | none => rw [hw] at h3; simp at h3
    | some w =>
        rw [hw] at h3
        simp only [Option.map_some'] at h3
        have h3' : w.plan_type = .FREE ∧ w.questions_remaining = 0 ∧ w.premium_expiry = none := by
          have := Option.some.inj h3
          exact ⟨congrArg Prod.fst this, congrArg (fun t => t.2.1) this, congrArg (fun t => t.2.2) this⟩
        simp [h3'.1, h3'.2.1]

/-- Witness for C3 amended, at a concrete input: stored PREMIUM user with
expiry 0, login at time 10. -/
theorem C3_downgrade_at_login_witness :
    (check_premium_expiry ⟨10, 100, 30, 5⟩
      ⟨[⟨"a", "ip", .PREMIUM, 0, 5, some 0, false, 0, 0⟩], [], [], [], [], [], [], [], none, []⟩
      "a" 10).2 = true ∧
    (findUser (check_premium_expiry ⟨10, 100, 30, 5⟩
      ⟨[⟨"a", "ip", .PREMIUM, 0, 5, some 0, false, 0, 0⟩], [], [], [], [], [], [], [], none, []⟩
      "a" 10).1 "a").map (fun v => (v.plan_type, v.questions_remaining, v.premium_expiry)) =
      some (.FREE, 0, none) ∧
    can_generate_questions (some ⟨"a", "ip", .PREMIUM, 0, 5, some 0, false, 0, 0⟩) 10 =
      (false, "Your Premium subscription has expired. Please renew to continue.") ∧
    ((get_or_create_user ⟨10, 100, 30, 5⟩
      ⟨[⟨"a", "ip", .PREMIUM, 0, 5, some 0, false, 0, 0⟩], [], [], [], [], [], [], [], none, []⟩
      "a" "ip" 10).2.1).map (fun v => (v.plan_type, v.questions_remaining)) = some (.FREE, 0) :=
  C3_downgrade_at_login ⟨10, 100, 30, 5⟩
    ⟨[⟨"a", "ip", .PREMIUM, 0, 5, some 0, false, 0, 0⟩], [], [], [], [], [], [], [], none, []⟩
    ⟨"a", "ip", .PREMIUM, 0, 5, some 0, false, 0, 0⟩ "a" "ip" 0 10
    (by decide) (by decide) (by decide) (by decide) (by decide) (by decide)

theorem approve_payment_users (st : St) (pid : Int) (notes : Option String)
    (approver : String) (now : Int) :
    (approve_payment st pid notes approver now).1.users = st.users := rfl

theorem change_user_plan_payments (cfg : AppConfig) (st : St) (email : String)
    (new_plan : Plan) (qropt : Option Int) (now : Int) :
    (change_user_plan cfg st email new_plan qropt now).1.payments = st.payments := rfl

theorem change_user_plan_plan_type (cfg : AppConfig) (st : St) (email : String)
    (new_plan : Plan) (qropt : Option Int) (now : Int) (u : UserRec)
    (hu : findUser st email = some u) :
    (findUser (change_user_plan cfg st email new_plan qropt now).1 email).map
      (fun v => v.plan_type) = some new_plan := by
  have he : u.email = email := by simpa using List.find?_some hu
  unfold change_user_plan findUser
  rw [find?_map_of_email_preserved _ (setPlanRow_email _ _ _ _ _) st.users email]
  unfold findUser at hu
  rw [hu]
  simp [setPlanRow, he]

/-- Claim C4 (spec-modelled orchestrator over the embedded
`change_user_plan` and `approve_payment` writes): if the plan-change write
fails, the state is untouched -- a PENDING payment stays PENDING -- and
failure is reported; if it succeeds, the requester's plan is changed (plan
change applied first) and only then the payment row is persisted as
APPROVED with notes, approver and timestamp. -/
theorem C4_payment_approval_atomic (cfg : AppConfig) (st : St) (pid : Int)
    (email : String) (plan : Plan) (notes : Option String) (approver : String)
    (now : Int) (u : UserRec) (p : Payment)
    (hu : findUser st email = some u) (hp : p ∈ st.payments)
    (hid : p.payment_id = pid) (hpend : p.status = .PENDING) :
    ((process_payment_approval cfg st pid email plan notes approver now false).1 = st ∧
     (process_payment_approval cfg st pid email plan notes approver now false).2 = false ∧
     p ∈ (process_payment_approval cfg st pid email plan notes approver now false).1.payments) ∧
    ((findUser (process_payment_approval cfg st pid email plan notes approver now true).1 email).map
        (fun v => v.plan_type) = some plan ∧
     { p with status := .APPROVED, admin_notes := notes,
              approved_at := some now, approved_by := some approver } ∈
       (process_payment_approval cfg st pid email plan notes approver now true).1.payments) := by
  refine ⟨⟨rfl, rfl, hp⟩, ?_, ?_⟩
  · show (findUser (approve_payment (change_user_plan cfg st email plan none now).1
        pid notes approver now).1 email).map (fun v => v.plan_type) = some plan
    rw [show findUser (approve_payment (change_user_plan cfg st email plan none now).1
          pid notes approver now).1 email =
        findUser (change_user_plan cfg st email plan none now).1 email from by
      unfold findUser
      rw [approve_payment_users]]
    exact change_user_plan_plan_type cfg st email plan none now u hu
  · show _ ∈ (approve_payment (change_user_plan cfg st email plan none now).1
        pid notes approver now).1.payments
    unfold approve_payment
    simp only [change_user_plan_payments]
    have := List.mem_map_of_mem (fun q : Payment =>
      if q.payment_id = pid then
        { q with status := .APPROVED, admin_notes := notes,
                 approved_at := some now, approved_by := some approver }
      else q) hp
    simpa [hid] using this

/-- Witness for C4 at a concrete input: PENDING payment 7 requesting PRO
for user a. -/
theorem C4_payment_approval_atomic_witness :
    ((process_payment_approval ⟨10, 100, 30, 5⟩
        ⟨[⟨"a", "ip", .FREE, 0, 0, none, false, 0, 0⟩], [], [], [], [], [],
          [⟨7, "Name", "a", none, .PRO, "", .PENDING, none, none, none, 0⟩], [], none, []⟩
        7 "a" .PRO none "admin" 9 false).1 =
      ⟨[⟨"a", "ip", .FREE, 0, 0, none, false, 0, 0⟩], [], [], [], [], [],
        [⟨7, "Name", "a", none, .PRO, "", .PENDING, none, none, none, 0⟩], [], none, []⟩ ∧
     (process_payment_approval ⟨10, 100, 30, 5⟩
        ⟨[⟨"a", "ip", .FREE, 0, 0, none, false, 0, 0⟩], [], [], [], [], [],
          [⟨7, "Name", "a", none, .PRO, "", .PENDING, none, none, none, 0⟩], [], none, []⟩
        7 "a" .PRO none "admin" 9 false).2 = false ∧
     (⟨7, "Name", "a", none, .PRO, "", .PENDING, none, none, none, 0⟩ : Payment) ∈
       (process_payment_approval ⟨10, 100, 30, 5⟩
        ⟨[⟨"a", "ip", .FREE, 0, 0, none, false, 0, 0⟩], [], [], [], [], [],
          [⟨7, "Name", "a", none, .PRO, "", .PENDING, none, none, none, 0⟩], [], none, []⟩
        7 "a" .PRO none "admin" 9 false).1.payments) ∧
    ((findUser (process_payment_approval ⟨10, 100, 30, 5⟩
        ⟨[⟨"a", "ip", .FREE, 0, 0, none, false, 0, 0⟩], [], [], [], [], [],
          [⟨7, "Name", "a", none, .PRO, "", .PENDING, none, none, none, 0⟩], [], none, []⟩
        7 "a" .PRO none "admin" 9 true).1 "a").map (fun v => v.plan_type) = some .PRO ∧
     (⟨7, "Name", "a", none, .PRO, "", .APPROVED, none, some "admin", some 9, 0⟩ : Payment) ∈
       (process_payment_approval ⟨10, 100, 30, 5⟩
        ⟨[⟨"a", "ip", .FREE, 0, 0, none, false, 0, 0⟩], [], [], [], [], [],
          [⟨7, "Name", "a", none, .PRO, "", .PENDING, none, none, none, 0⟩], [], none, []⟩
        7 "a" .PRO none "admin" 9 true).1.payments) :=
  C4_payment_approval_atomic ⟨10, 100, 30, 5⟩
    ⟨[⟨"a", "ip", .FREE, 0, 0, none, false, 0, 0⟩], [], [], [], [], [],
      [⟨7, "Name", "a", none, .PRO, "", .PENDING, none, none, none, 0⟩], [], none, []⟩
    7 "a" .PRO none "admin" 9 ⟨"a", "ip", .FREE, 0, 0, none, false, 0, 0⟩
    ⟨7, "Name", "a", none, .PRO, "", .PENDING, none, none, none, 0⟩
    (by decide) (by decide) (by decide) (by decide)

/-- Claim C5 counterexample: user a is cached (as FREE); `change_user_plan`
to PRO succeeds (returns `true`), yet the user-by-email cache still holds
the stale entry: a cached read still answers FREE while a fresh read sees
PRO.  The plan-change write performs no eviction, contradicting the claim
that every quota/plan/block write evicts the user-by-email cache. -/
theorem C5_plan_change_does_not_evict :
    ((change_user_plan ⟨10, 100, 30, 5⟩
        ⟨[⟨"a", "ip", .FREE, 0, 10, none, false, 0, 0⟩], [], [], [], [], [], [],
          [("a", some ⟨"a", "ip", .FREE, 0, 10, none, false, 0, 0⟩)], none, []⟩
        "a" .PRO none 5).2 = true) ∧
    ((change_user_plan ⟨10, 100, 30, 5⟩
        ⟨[⟨"a", "ip", .FREE, 0, 10, none, false, 0, 0⟩], [], [], [], [], [], [],
          [("a", some ⟨"a", "ip", .FREE, 0, 10, none, false, 0, 0⟩)], none, []⟩
        "a" .PRO none 5).1.userCache =
      [("a", some ⟨"a", "ip", .FREE, 0, 10, none, false, 0, 0⟩)]) ∧
    ((cached_get_user_by_email (change_user_plan ⟨10, 100, 30, 5⟩
        ⟨[⟨"a", "ip", .FREE, 0, 10, none, false, 0, 0⟩], [], [], [], [], [], [],
          [("a", some ⟨"a", "ip", .FREE, 0, 10, none, false, 0, 0⟩)], none, []⟩
        "a" .PRO none 5).1 "a").2.map (fun u => u.plan_type) = some .FREE) ∧
    ((get_user_by_email (change_user_plan ⟨10, 100, 30, 5⟩
        ⟨[⟨"a", "ip", .FREE, 0, 10, none, false, 0, 0⟩], [], [], [], [], [], [],
          [("a", some ⟨"a", "ip", .FREE, 0, 10, none, false, 0, 0⟩)], none, []⟩
        "a" .PRO none 5).1 "a").map (fun u => u.plan_type) = some .PRO) := by
  decide

/-- Claim C5 amended: exactly the two write paths of the cached_queries
module evict the user-by-email cache -- `write_create_user` and
`write_decrement_questions` clear it after the successful write -- while
the queries-module writes that change a user row (`change_user_plan`,
`adjust_user_quota`, `block_user`, `update_user_ip`) and the cached-module
`write_update_user_ip` leave the cache untouched. -/
theorem C5_user_cache_evictions :
    (∀ (cfg : AppConfig) (st : St) (email ip : String) (now : Int),
        (write_create_user cfg st email ip now).1.userCache = []) ∧
    (∀ (st : St) (email : String) (count now : Int),
        (write_decrement_questions st email count now).1.userCache = []) ∧
    (∀ (cfg : AppConfig) (st : St) (email : String) (plan : Plan) (qropt : Option Int) (now : Int),
        (change_user_plan cfg st email plan qropt now).1.userCache = st.userCache) ∧
    (∀ (st : St) (email : String) (q now : Int),
        (adjust_user_quota st email q now).1.userCache = st.userCache) ∧
    (∀ (st : St) (email : String) (b : Bool) (now : Int),
        (block_user st email b now).1.userCache = st.userCache) ∧
    (∀ (st : St) (email ip : String) (now : Int),
        (update_user_ip st email ip now).userCache = st.userCache) ∧
    (∀ (st : St) (email ip : String) (now : Int),
        (write_update_user_ip st email ip now).1.userCache = st.userCache) := by
  refine ⟨?_, ?_, fun _ _ _ _ _ _ => rfl, fun _ _ _ _ => rfl, fun _ _ _ _ => rfl, ?_, ?_⟩
  · intro cfg st email ip now
    simp [write_create_user, log_ip_usage_userCache, log_ip_history_userCache,
      invalidate_user_cache]
  · intro st email count now
    simp [write_decrement_questions, decrement_user_questions, invalidate_user_cache]
  · intro st email ip now
    simp [update_user_ip, log_ip_history_userCache]
  · intro st email ip now
    simp [write_update_user_ip, log_ip_history_userCache]

/-- Claim C6 counterexample: creating the same user twice via
`create_user` -- the variant src/services/usage_tracker.py actually calls.
The second call is not a no-op success: the duplicate INSERT raises, is
rolled back, and `create_user` returns `None`, which `get_or_create_user`
surfaces as a failed account creation. -/
theorem C6_second_create_returns_error :
    ((create_user ⟨10, 100, 30, 5⟩
        (create_user ⟨10, 100, 30, 5⟩ ⟨[], [], [], [], [], [], [], [], none, []⟩ "a" "ip" 0).1
        "a" "ip" 1).2 = none) ∧
    ((get_or_create_user ⟨10, 100, 30, 5⟩
        (create_user ⟨10, 100, 30, 5⟩ ⟨[], [], [], [], [], [], [], [], none, []⟩ "b" "ip" 0).1
        "b" "ip" 1).2.2 = "Welcome back!") := by
  decide

/-- Claim C6 amended: a duplicate create never adds a row and never resets
the existing plan or quota -- `create_user` (plain INSERT) leaves the state
unchanged but returns the failure value `None`, while `write_create_user`
(INSERT ... ON CONFLICT (email) DO NOTHING) leaves the users table
unchanged and reports success. -/
theorem C6_duplicate_create_preserves_user (cfg : AppConfig) (st : St)
    (email ip : String) (now : Int) (h : (findUser st email).isSome) :
    create_user cfg st email ip now = (st, none) ∧
    (write_create_user cfg st email ip now).1.users = st.users ∧
    (write_create_user cfg st email ip now).2 = some email := by
  refine ⟨?_, ?_, rfl⟩
  · simp [create_user, h]
  · simp [write_create_user, log_ip_history_users, log_ip_usage_users,
      invalidate_user_cache, h]

/-- Witness for C6 amended at a concrete input: an existing PRO user with
42 questions remaining. -/
theorem C6_duplicate_create_preserves_user_witness :
    create_user ⟨10, 100, 30, 5⟩
      ⟨[⟨"a", "ip", .PRO, 3, 42, none, false, 0, 0⟩], [], [], [], [], [], [], [], none, []⟩
      "a" "ip2" 9 =
      (⟨[⟨"a", "ip", .PRO, 3, 42, none, false, 0, 0⟩], [], [], [], [], [], [], [], none, []⟩, none) ∧
    (write_create_user ⟨10, 100, 30, 5⟩
      ⟨[⟨"a", "ip", .PRO, 3, 42, none, false, 0, 0⟩], [], [], [], [], [], [], [], none, []⟩
      "a" "ip2" 9).1.users = [⟨"a", "ip", .PRO, 3, 42, none, false, 0, 0⟩] ∧
    (write_create_user ⟨10, 100, 30, 5⟩
      ⟨[⟨"a", "ip", .PRO, 3, 42, none, false, 0, 0⟩], [], [], [], [], [], [], [], none, []⟩
      "a" "ip2" 9).2 = some "a" :=
  C6_duplicate_create_preserves_user ⟨10, 100, 30, 5⟩
    ⟨[⟨"a", "ip", .PRO, 3, 42, none, false, 0, 0⟩], [], [], [], [], [], [], [], none, []⟩
    "a" "ip2" 9 (by decide)

/-- Claim C7: on a first-attempt connectivity failure
(`psycopg2.OperationalError`), `execute_query` attempts exactly one
rollback, discards and recreates the cached session exactly once, retries
the failed statement exactly once against the fresh session (two
`cursor.execute` calls in total), and if the retry fails -- or no fresh
session could be obtained -- returns the failure value `None` to the caller
instead of raising (the model is a total function: every path returns). -/
theorem C7_retry_once_then_none (env : ExecEnv) (fetch : Bool)
    (h : env.firstAttempt = .opError) :
    (execute_query_model env fetch).2.rollbacks = 1 ∧
    (execute_query_model env fetch).2.sessionRecreations = 1 ∧
    (env.reconnectOk = true → (execute_query_model env fetch).2.executeCalls = 2) ∧
    (env.reconnectOk = true → env.retryAttempt = .opError ∨ env.retryAttempt = .otherError →
      (execute_query_model env fetch).1 = none) ∧
    (env.reconnectOk = false → (execute_query_model env fetch).1 = none) := by
  obtain ⟨fa, ro, ra⟩ := env
  cases h
  cases ro <;> cases ra <;> simp [execute_query_model]

/-- Witness for C7 at a concrete input: first attempt loses the connection,
the reconnect succeeds, and the retry fails with another
OperationalError. -/
theorem C7_retry_once_then_none_witness :
    (execute_query_model ⟨.opError, true, .opError⟩ true).2.rollbacks = 1 ∧
    (execute_query_model ⟨.opError, true, .opError⟩ true).2.sessionRecreations = 1 ∧
    (execute_query_model ⟨.opError, true, .opError⟩ true).2.executeCalls = 2 ∧
    (execute_query_model ⟨.opError, true, .opError⟩ true).1 = none :=
  ⟨(C7_retry_once_then_none ⟨.opError, true, .opError⟩ true rfl).1,
   (C7_retry_once_then_none ⟨.opError, true, .opError⟩ true rfl).2.1,
   (C7_retry_once_then_none ⟨.opError, true, .opError⟩ true rfl).2.2.1 rfl,
   (C7_retry_once_then_none ⟨.opError, true, .opError⟩ true rfl).2.2.2.1 rfl (Or.inl rfl)⟩

/-- Claim C8 counterexample: one non-deleted admin document (id 1).  A
cached listing is taken, the document is soft-deleted, and the next cached
read -- still within the 5-minute TTL, since `delete_admin_document`
performs no invalidation -- still lists document 1 even though its row is
now flagged deleted. -/
theorem C8_cached_listing_survives_delete :
    ((cached_get_admin_documents (delete_admin_document
        (cached_get_admin_documents
          ⟨[], [], [], [], [],
            [⟨1, "f.pdf", "pdf", "p", none, true, "admin", none, none, some "c", false, 0⟩],
            [], [], none, []⟩).1 1).1).2.map (fun d => d.admin_doc_id) = [1]) ∧
    ((delete_admin_document (cached_get_admin_documents
          ⟨[], [], [], [], [],
            [⟨1, "f.pdf", "pdf", "p", none, true, "admin", none, none, some "c", false, 0⟩],
            [], [], none, []⟩).1 1).1.admin_documents.map (fun d => d.is_deleted) = [true]) := by
  decide

/-- Claim C8 amended: the soft-delete exclusion is query-level and holds
for every uncached read -- `get_admin_documents`, `get_user_documents` and
`get_admin_document_content` never surface a deleted row -- but neither
`delete_admin_document` nor `delete_user_document` invalidates the
corresponding listing cache, so a cached listing taken before the delete
can still show the document until its TTL expires. -/
theorem C8_soft_delete_query_level (st : St) (email : String) (id : Int)
    (d : AdminDoc) (ud : UserDoc) (c fn ft : String)
    (hd : d ∈ get_admin_documents st) (hud : ud ∈ get_user_documents st email)
    (hc : get_admin_document_content st id = some (c, fn, ft)) :
    d.is_deleted = false ∧
    ud.is_deleted = false ∧
    (∃ dc ∈ st.admin_documents, dc.admin_doc_id = id ∧ dc.is_deleted = false ∧
      dc.file_content = some c) ∧
    (∀ i : Int, (delete_admin_document st i).1.adminDocsCache = st.adminDocsCache) ∧
    (∀ (i : Int) (e : String), (delete_user_document st i e).1.userDocsCache = st.userDocsCache) := by
  refine ⟨?_, ?_, ?_, fun _ => rfl, fun _ _ => rfl⟩
  · have := (List.mem_filter.mp hd).2
    simpa using this
  · have h2 := (List.mem_filter.mp hud).2
    simp only [Bool.and_eq_true, beq_iff_eq, Bool.not_eq_true'] at h2
    exact h2.2
  · unfold get_admin_document_content at hc
    cases hf : st.admin_documents.find? (fun d => d.admin_doc_id == id && !d.is_deleted) with
    | none => rw [hf] at hc; cases hc
    | some dc =>
        rw [hf] at hc
        have hmem := List.mem_of_find?_eq_some hf
        have hpred := List.find?_some hf
        simp only [Bool.and_eq_true, beq_iff_eq, Bool.not_eq_true'] at hpred
        refine ⟨dc, hmem, hpred.1, hpred.2, ?_⟩
        cases hcc : dc.file_content with
        | none => simp [hcc] at hc
        | some cc =>
            simp only [hcc] at hc
            have hcceq : cc = c := congrArg Prod.fst (Option.some.inj hc)
            exact congrArg some hcceq

/-- Witness for C8 amended at a concrete input: a state holding one live
admin document and one live user document for user a. -/
theorem C8_soft_delete_query_level_witness :
    (⟨1, "f.pdf", "pdf", "p", none, true, "admin", none, none, some "c", false, 0⟩ : AdminDoc).is_deleted = false ∧
    (⟨2, "a", "g.pdf", "pdf", "q", none, none, false, 0⟩ : UserDoc).is_deleted = false ∧
    (∃ dc ∈ (⟨[], [], [], [], [⟨2, "a", "g.pdf", "pdf", "q", none, none, false, 0⟩],
        [⟨1, "f.pdf", "pdf", "p", none, true, "admin", none, none, some "c", false, 0⟩],
        [], [], none, []⟩ : St).admin_documents,
        dc.admin_doc_id = 1 ∧ dc.is_deleted = false ∧ dc.file_content = some "c") ∧
    ((delete_admin_document
        ⟨[], [], [], [], [⟨2, "a", "g.pdf", "pdf", "q", none, none, false, 0⟩],
          [⟨1, "f.pdf", "pdf", "p", none, true, "admin", none, none, some "c", false, 0⟩],
          [], [], none, []⟩ 1).1.adminDocsCache = none) ∧
    ((delete_user_document
        ⟨[], [], [], [], [⟨2, "a", "g.pdf", "pdf", "q", none, none, false, 0⟩],
          [⟨1, "f.pdf", "pdf", "p", none, true, "admin", none, none, some "c", false, 0⟩],
          [], [], none, []⟩ 2 "a").1.userDocsCache = []) :=
  ⟨(C8_soft_delete_query_level
      ⟨[], [], [], [], [⟨2, "a", "g.pdf", "pdf", "q", none, none, false, 0⟩],
        [⟨1, "f.pdf", "pdf", "p", none, true, "admin", none, none, some "c", false, 0⟩],
        [], [], none, []⟩
      "a" 1 ⟨1, "f.pdf", "pdf", "p", none, true, "admin", none, none, some "c", false, 0⟩
      ⟨2, "a", "g.pdf", "pdf", "q", none, none, false, 0⟩
      "c" "f.pdf" "pdf" (by decide) (by decide) (by decide)).1,
   (C8_soft_delete_query_level
      ⟨[], [], [], [], [⟨2, "a", "g.pdf", "pdf", "q", none, none, false, 0⟩],
        [⟨1, "f.pdf", "pdf", "p", none, true, "admin", none, none, some "c", false, 0⟩],
        [], [], none, []⟩
      "a" 1 ⟨1, "f.pdf", "pdf", "p", none, true, "admin", none, none, some "c", false, 0⟩
      ⟨2, "a", "g.pdf", "pdf", "q", none, none, false, 0⟩
      "c" "f.pdf" "pdf" (by decide) (by decide) (by decide)).2.1,
   (C8_soft_delete_query_level
      ⟨[], [], [], [], [⟨2, "a", "g.pdf", "pdf", "q", none, none, false, 0⟩],
        [⟨1, "f.pdf", "pdf", "p", none, true, "admin", none, none, some "c", false, 0⟩],
        [], [], none, []⟩
      "a" 1 ⟨1, "f.pdf", "pdf", "p", none, true, "admin", none, none, some "c", false, 0⟩
      ⟨2, "a", "g.pdf", "pdf", "q", none, none, false, 0⟩
      "c" "f.pdf" "pdf" (by decide) (by decide) (by decide)).2.2.1,
   (C8_soft_delete_query_level
      ⟨[], [], [], [], [⟨2, "a", "g.pdf", "pdf", "q", none, none, false, 0⟩],
        [⟨1, "f.pdf", "pdf", "p", none, true, "admin", none, none, some "c", false, 0⟩],
        [], [], none, []⟩
      "a" 1 ⟨1, "f.pdf", "pdf", "p", none, true, "admin", none, none, some "c", false, 0⟩
      ⟨2, "a", "g.pdf", "pdf", "q", none, none, false, 0⟩
      "c" "f.pdf" "pdf" (by decide) (by decide) (by decide)).2.2.2.1 1,
   (C8_soft_delete_query_level
      ⟨[], [], [], [], [⟨2, "a", "g.pdf", "pdf", "q", none, none, false, 0⟩],
        [⟨1, "f.pdf", "pdf", "p", none, true, "admin", none, none, some "c", false, 0⟩],
        [], [], none, []⟩
      "a" 1 ⟨1, "f.pdf", "pdf", "p", none, true, "admin", none, none, some "c", false, 0⟩
      ⟨2, "a", "g.pdf", "pdf", "q", none, none, false, 0⟩
      "c" "f.pdf" "pdf" (by decide) (by decide) (by decide)).2.2.2.2 2 "a"⟩

theorem create_user_usage_logs (cfg : AppConfig) (st : St) (email ip : String) (now : Int) :
    (create_user cfg st email ip now).1.usage_logs = st.usage_logs := by
  unfold create_user
  split
  · rfl
  · simp [log_ip_usage_usage_logs, log_ip_history_usage_logs]

theorem update_user_ip_usage_logs (st : St) (email ip : String) (now : Int) :
    (update_user_ip st email ip now).usage_logs = st.usage_logs := by
  simp [update_user_ip, log_ip_history_usage_logs]

theorem check_premium_expiry_usage_logs (cfg : AppConfig) (st : St) (email : String) (now : Int) :
    (check_premium_expiry cfg st email now).1.usage_logs = st.usage_logs := by
  unfold check_premium_expiry
  cases get_user_by_email st email with
  | none => rfl
  | some u =>
      simp only
      split <;> rfl

/-- Claim C9 counterexample: a usage-log row written for user a is deleted
again by the admin `delete_user` cascade, so usage-log rows are not
immune to deletion. -/
theorem C9_delete_user_removes_log_row :
    ((⟨"a", "ip", 5, none, none, none, none, 3⟩ : LogRec) ∈
      (⟨[⟨"a", "ip", .FREE, 1, 9, none, false, 0, 0⟩],
        [⟨"a", "ip", 5, none, none, none, none, 3⟩], [], [], [], [], [], [], none, []⟩ : St).usage_logs) ∧
    ((⟨"a", "ip", 5, none, none, none, none, 3⟩ : LogRec) ∉
      (delete_user ⟨[⟨"a", "ip", .FREE, 1, 9, none, false, 0, 0⟩],
        [⟨"a", "ip", 5, none, none, none, none, 3⟩], [], [], [], [], [], [], none, []⟩ "a").1.usage_logs) := by
  decide

/-- Claim C9 amended: usage-log rows are never mutated -- `log_usage` only
appends a fresh row and every other embedded operation leaves USAGE_LOGS
unchanged -- and the single deleting operation is the admin `delete_user`
cascade, which removes exactly the deleted user's rows. -/
theorem C9_usage_logs_append_only :
    (∀ (st : St) (email ip : String) (q : Int) (s c d n : Option String) (now : Int),
        (log_usage st email ip q s c d n now).1.usage_logs =
          st.usage_logs ++ [⟨email, ip, q, s, c, d, n, now⟩]) ∧
    (∀ (st : St) (email ip : String) (count : Int) (s c d : Option String) (now : Int),
        (use_questions st email ip count s c d now).1.usage_logs = st.usage_logs ∨
        (use_questions st email ip count s c d now).1.usage_logs =
          st.usage_logs ++ [⟨email, ip, count, s, c, d, none, now⟩]) ∧
    (∀ (cfg : AppConfig) (st : St) (email ip : String) (now : Int),
        (create_user cfg st email ip now).1.usage_logs = st.usage_logs) ∧
    (∀ (st : St) (email ip : String) (now : Int),
        (update_user_ip st email ip now).usage_logs = st.usage_logs) ∧
    (∀ (cfg : AppConfig) (st : St) (email : String) (plan : Plan) (qr : Int)
        (expiry : Option Int) (now : Int),
        (update_user_plan cfg st email plan qr expiry now).1.usage_logs = st.usage_logs) ∧
    (∀ (st : St) (email : String) (count now : Int),
        (decrement_user_questions st email count now).1.usage_logs = st.usage_logs) ∧
    (∀ (st : St) (email : String) (b : Bool) (now : Int),
        (block_user st email b now).1.usage_logs = st.usage_logs) ∧
    (∀ (st : St) (email : String) (q now : Int),
        (adjust_user_quota st email q now).1.usage_logs = st.usage_logs) ∧
    (∀ (cfg : AppConfig) (st : St) (email : String) (plan : Plan) (qropt : Option Int) (now : Int),
        (change_user_plan cfg st email plan qropt now).1.usage_logs = st.usage_logs) ∧
    (∀ (cfg : AppConfig) (st : St) (email : String) (now : Int),
        (check_premium_expiry cfg st email now).1.usage_logs = st.usage_logs) ∧
    (∀ (st : St) (i : Int) (email : String),
        (delete_user_document st i email).1.usage_logs = st.usage_logs) ∧
    (∀ (st : St) (i : Int),
        (delete_admin_document st i).1.usage_logs = st.usage_logs) ∧
    (∀ (st : St) (i : Int) (b : Bool),
        (update_admin_document_downloadable st i b).1.usage_logs = st.usage_logs) ∧
    (∀ (st : St) (pid : Int) (notes : Option String) (approver : String) (now : Int),
        (approve_payment st pid notes approver now).1.usage_logs = st.usage_logs ∧
        (reject_payment st pid notes approver now).1.usage_logs = st.usage_logs) ∧
    (∀ (cfg : AppConfig) (st : St) (email ip : String) (now : Int),
        (write_create_user cfg st email ip now).1.usage_logs = st.usage_logs) ∧
    (∀ (st : St) (email ip : String) (now : Int),
        (write_update_user_ip st email ip now).1.usage_logs = st.usage_logs) ∧
    (∀ (st : St) (email : String) (count now : Int),
        (write_decrement_questions st email count now).1.usage_logs = st.usage_logs) ∧
    (∀ (st : St) (email : String),
        (delete_user st email).1.usage_logs =
          st.usage_logs.filter (fun r => !(r.email == email))) := by
  refine ⟨fun _ _ _ _ _ _ _ _ _ => rfl, ?_, create_user_usage_logs, update_user_ip_usage_logs,
    fun _ _ _ _ _ _ _ => rfl, fun _ _ _ _ => rfl, fun _ _ _ _ => rfl, fun _ _ _ _ => rfl,
    fun _ _ _ _ _ _ => rfl, check_premium_expiry_usage_logs,
    fun _ _ _ => rfl, fun _ _ => rfl, fun _ _ _ => rfl,
    fun _ _ _ _ _ => ⟨rfl, rfl⟩, ?_, ?_, ?_,
    fun _ _ => rfl⟩
  · intro st email ip count s c d now
    unfold use_questions
    cases get_user_by_email st email with
    | none => exact Or.inl rfl
    | some user =>
        simp only
        split
        · exact Or.inr rfl
        · exact Or.inr rfl
  · intro cfg st email ip now
    simp only [write_create_user, log_ip_usage_usage_logs, log_ip_history_usage_logs,
      invalidate_user_cache]
    split <;> rfl
  · intro st email ip now
    simp [write_update_user_ip, log_ip_history_usage_logs]
  · intro st email count now
    simp [write_decrement_questions, decrement_user_questions, invalidate_user_cache]

/-- Claim C10: a user whose stored plan is PREMIUM but whose
`premium_expiry` is NULL falls through the premium branch of both the
permission check and the consumption path: generation is allowed exactly
when `questions_remaining` is positive, and a consume decrements the quota
via the conditional UPDATE just as for FREE/PRO. -/
theorem C10_premium_without_expiry_is_quota_limited (u : UserRec) (st : St)
    (email ip : String) (count now : Int)
    (hplan : u.plan_type = .PREMIUM) (hexp : u.premium_expiry = none)
    (hblk : u.is_blocked = false) :
    ((can_generate_questions (some u) now).1 = true ↔ 0 < u.questions_remaining) ∧
    (findUser st email = some u → count ≤ u.questions_remaining →
      (findUser (use_questions st email ip count none none none now).1 email).map
        (fun v => v.questions_remaining) = some (u.questions_remaining - count)) := by
  constructor
  · simp only [can_generate_questions, hblk, Bool.false_eq_true, if_false]
    rw [if_neg (by simp [hexp])]
    by_cases hq : u.questions_remaining ≤ 0
    · rw [if_pos hq]
      rw [if_neg (by simp [hplan])]
      simp
      omega
    · rw [if_neg hq]
      simp
      omega
  · intro hu hle
    have he : u.email = email := by simpa using List.find?_some hu
    unfold use_questions
    simp only [get_user_by_email, hu]
    rw [if_neg (by simp [premiumStillActive, hexp])]
    rw [findUser_decrement]
    have h2 : findUser (increment_ip_usage
        (log_usage st email ip count none none none none now).1 ip count now) email = some u := hu
    rw [h2]
    simp [decRow, he, hle]

/-- Witness for C10 at a concrete input: PREMIUM user with NULL expiry and
quota 7, consuming 5. -/
theorem C10_premium_without_expiry_is_quota_limited_witness :
    ((can_generate_questions (some ⟨"a", "ip", .PREMIUM, 0, 7, none, false, 0, 0⟩) 10).1 = true ↔
      0 < (7 : Int)) ∧
    ((findUser (use_questions
          ⟨[⟨"a", "ip", .PREMIUM, 0, 7, none, false, 0, 0⟩], [], [], [], [], [], [], [], none, []⟩
          "a" "ip" 5 none none none 10).1 "a").map
        (fun v => v.questions_remaining) = some (7 - 5)) :=
  ⟨(C10_premium_without_expiry_is_quota_limited
      ⟨"a", "ip", .PREMIUM, 0, 7, none, false, 0, 0⟩
      ⟨[⟨"a", "ip", .PREMIUM, 0, 7, none, false, 0, 0⟩], [], [], [], [], [], [], [], none, []⟩
      "a" "ip" 5 10 (by decide) (by decide) (by decide)).1,
   (C10_premium_without_expiry_is_quota_limited
      ⟨"a", "ip", .PREMIUM, 0, 7, none, false, 0, 0⟩
      ⟨[⟨"a", "ip", .PREMIUM, 0, 7, none, false, 0, 0⟩], [], [], [], [], [], [], [], none, []⟩
      "a" "ip" 5 10 (by decide) (by decide) (by decide)).2 (by decide) (by decide)⟩
